import Mathlib

/-!
Verification of the api-sports MCP server core
(services/api_sports_service.py and services/cache_service.py).

Shallow embedding conventions:
* machine time instants and sleep durations are rationals (the Python code
  uses floats from time.time(); every scenario here uses exact values);
* the asyncio event loop is sequentialised: each async operation is a pure
  state-passing function, and asyncio.sleep is recorded as an event or as an
  explicit advance of the clock;
* asyncio.Lock is NOT reentrant: a task that re-acquires a lock it already
  holds blocks forever.  The RateLimiter model carries an explicit flag for
  the lock held by the current task and returns a `deadlock` outcome when the
  code path re-acquires it.
-/

/-- Configuration values consumed by the core, with the defaults of
Settings in config.py.  The integer TTL seconds are embedded as rationals so
that they add directly to time.time() instants. -/
structure Settings where
  cacheEnabled : Bool := true
  cacheTtlTeams : ℚ := 86400
  cacheTtlFixturesCompleted : ℚ := 0
  cacheTtlFixturesUpcoming : ℚ := 3600
  cacheTtlStatistics : ℚ := 3600
  cacheTtlStandings : ℚ := 1800
  cacheTtlPredictions : ℚ := 3600
  cacheMaxSize : Nat := 1000
  rateLimitCallsPerMinute : Nat := 30
  rateLimitCallsPerDay : Nat := 100
  rateLimitBackoffFactor : ℚ := 2
  rateLimitMaxRetries : Nat := 3
deriving Repr, DecidableEq

/-- RateLimiter state (api_sports_service.py lines 24-34): two lists of
recorded call instants plus the configured ceilings. -/
structure RateLimiter where
  callsPerMinute : Nat
  callsPerDay : Nat
  minuteCalls : List ℚ
  dayCalls : List ℚ
deriving Repr, DecidableEq

/-- Possible outcomes of RateLimiter.acquire in the embedding. -/
inductive AcqResult where
  /-- acquire returned; final limiter state and the list of sleeps taken. -/
  | ok (rl : RateLimiter) (slept : List ℚ)
  /-- the code path re-acquired the asyncio.Lock already held by the same
  task: the task blocks forever. -/
  | deadlock (slept : List ℚ)
  /-- minute_calls[0] on an empty list (only reachable with a zero ceiling). -/
  | indexError
  /-- fuel ran out before the function returned (used to make the
  recursion structural; every theorem quantifies over enough fuel). -/
  | outOfFuel
deriving Repr, DecidableEq

/-- Body of RateLimiter.acquire (api_sports_service.py lines 36-63).
`lockHeld` records whether the current task already holds self.lock when the
function starts; the recursive call after a sleep is made with the lock still
held (the `async with` block has not exited), which is the source of the
deadlock.  `now` is the value of time.time() at entry; a sleep advances it. -/
def acquireAux : Nat → Bool → ℚ → RateLimiter → List ℚ → AcqResult
  | 0, _, _, _, _ => .outOfFuel
  | _ + 1, true, _, _, slept => .deadlock slept
  | fuel + 1, false, now, rl, slept =>
    let minuteCalls := rl.minuteCalls.filter (fun t => t > now - 60)
    let dayCalls := rl.dayCalls.filter (fun t => t > now - 86400)
    if rl.callsPerMinute ≤ minuteCalls.length then
      match minuteCalls with
      | [] => .indexError
      | t0 :: _ =>
        let sleepTime := 60 - (now - t0)
        acquireAux fuel true (now + sleepTime)
          { rl with minuteCalls := minuteCalls, dayCalls := dayCalls }
          (slept ++ [sleepTime])
    else if rl.callsPerDay ≤ dayCalls.length then
      match dayCalls with
      | [] => .indexError
      | t0 :: _ =>
        let sleepTime := 86400 - (now - t0)
        acquireAux fuel true (now + sleepTime)
          { rl with minuteCalls := minuteCalls, dayCalls := dayCalls }
          (slept ++ [sleepTime])
    else
      .ok { rl with minuteCalls := minuteCalls ++ [now],
                    dayCalls := dayCalls ++ [now] } slept

/-- RateLimiter.acquire called from outside the critical section. -/
def RateLimiter.acquire (fuel : Nat) (now : ℚ) (rl : RateLimiter) : AcqResult :=
  acquireAux fuel false now rl []

/-- Application-level errors field of the upstream JSON body
(models/api_models.py: errors is Union of a list of strings and an object). -/
inductive ApiErrors where
  | list (es : List String)
  | dict (kvs : List (String × String))
deriving Repr, DecidableEq

/-- Python truthiness of the errors field (empty list or empty dict is falsy). -/
def ApiErrors.truthy : ApiErrors → Bool
  | .list es => ¬ es.isEmpty
  | .dict kvs => ¬ kvs.isEmpty

/-- Error message assembled in make_request lines 212-222: join the truthy
list elements, or the truthy dict entries rendered as key-colon-value. -/
def ApiErrors.message : ApiErrors → String
  | .list es => String.intercalate "; " (es.filter (fun e => e ≠ ""))
  | .dict kvs =>
    String.intercalate "; "
      ((kvs.filter (fun kv => kv.2 ≠ "")).map (fun kv => kv.1 ++ ": " ++ kv.2))

/-- Parsed upstream response body (ApiResponse in models/api_models.py),
restricted to the fields make_request and search_fixtures inspect. -/
structure ApiResponse where
  errors : ApiErrors
  results : Nat
  /-- the response payload: for the fixtures endpoint, one short status code
  per fixture item (the only payload field the cache-category decision
  reads); other payload fields are carried opaquely and unused. -/
  response : List String
deriving Repr, DecidableEq

/-- One simulated upstream HTTP response, as produced by the mocked
client.get: a status code, the optional Retry-After header, and the parsed
JSON body (none models a body that fails ApiResponse validation). -/
structure HttpResp where
  status : Nat
  retryAfter : Option Nat := none
  body : Option ApiResponse := none
deriving Repr, DecidableEq

/-- Terminal errors make_request can surface. -/
inductive ReqError where
  /-- httpx.HTTPStatusError re-raised on the final attempt (lines 183-204, 246-256). -/
  | httpStatus (code : Nat)
  /-- httpx.RequestError re-raised on the final attempt (no response available). -/
  | netError
  /-- pydantic ValidationError: raised immediately, never retried (lines 266-271). -/
  | parseError
  /-- ValueError raised for application-level errors, surfaced on the final
  attempt (lines 210-233, 273-279). -/
  | apiError (msg : String)
  /-- the for-loop ran out of attempts (line 286). -/
  | exhausted
deriving Repr, DecidableEq

/-- Observable events of one make_request execution. -/
inductive FetchEv where
  /-- a call to RateLimiter.acquire. -/
  | acq
  /-- one network attempt (client.get). -/
  | net
  /-- one asyncio.sleep for the given number of seconds. -/
  | sleep (d : ℚ)
deriving Repr, DecidableEq

instance {ε α : Type} [DecidableEq ε] [DecidableEq α] : DecidableEq (Except ε α) :=
  fun x y =>
  match x, y with
  | .error a, .error b =>
    if h : a = b then .isTrue (by rw [h])
    else .isFalse (by intro he; cases he; exact h rfl)
  | .ok a, .ok b =>
    if h : a = b then .isTrue (by rw [h])
    else .isFalse (by intro he; cases he; exact h rfl)
  | .error _, .ok _ => .isFalse (by intro he; cases he)
  | .ok _, .error _ => .isFalse (by intro he; cases he)

/-- Result of a make_request execution: either a terminal error, or the
parsed body together with the 0-based loop index of the succeeding attempt;
plus the ordered event trace. -/
structure MRTrace where
  outcome : Except ReqError (ApiResponse × Nat)
  events : List FetchEv
deriving Repr, DecidableEq

/-- The retry loop of make_request (api_sports_service.py lines 134-286).
`fuel + 1` is the number of loop iterations left (the pattern binds fuel one
below the remaining count), so the current iteration is the last one exactly
when the bound fuel is 0.  `gi` indexes the
simulated response sequence; an exhausted sequence models a network-level
failure (httpx.RequestError). -/
def mrLoop (backoff : ℚ) (responses : List HttpResp) :
    Nat → Nat → Nat → List FetchEv → MRTrace
  | 0, _, _, evs => ⟨.error .exhausted, evs⟩
  | fuel + 1, attempt, gi, evs =>
    match responses[gi]? with
    | none =>
      -- client.get raised httpx.RequestError
      if fuel = 0 then ⟨.error .netError, evs ++ [.net]⟩
      else mrLoop backoff responses fuel (attempt + 1) (gi + 1)
        (evs ++ [.net, .sleep (backoff ^ attempt)])
    | some r =>
      let evs := evs ++ [.net]
      if r.status = 429 then
        -- lines 159-167: sleep Retry-After (default 60) and continue;
        -- the continue advances the loop index
        let ra : Nat := r.retryAfter.getD 60
        mrLoop backoff responses fuel (attempt + 1) (gi + 1)
          (evs ++ [.sleep (ra : ℚ)])
      else if 500 ≤ r.status ∧ fuel ≠ 0 then
        -- lines 169-181: server error with attempts remaining
        mrLoop backoff responses fuel (attempt + 1) (gi + 1)
          (evs ++ [.sleep (backoff ^ attempt)])
      else if r.status ≠ 200 then
        -- lines 183-204: raise HTTPStatusError, caught at 246-256
        if fuel = 0 then ⟨.error (.httpStatus r.status), evs⟩
        else mrLoop backoff responses fuel (attempt + 1) (gi + 1)
          (evs ++ [.sleep (backoff ^ attempt)])
      else
        match r.body with
        | none => ⟨.error .parseError, evs⟩
        | some ar =>
          if ar.errors.truthy ∧ ar.errors.message ≠ "" then
            -- line 233 raises ValueError; it is caught by the generic
            -- except-Exception handler (273-279), which re-raises only on
            -- the final attempt and otherwise falls through to the backoff
            -- sleep at 281-284
            if fuel = 0 then
              ⟨.error (.apiError ("API Error: " ++ ar.errors.message)), evs⟩
            else mrLoop backoff responses fuel (attempt + 1) (gi + 1)
              (evs ++ [.sleep (backoff ^ attempt)])
          else ⟨.ok (ar, attempt), evs⟩

/-- make_request (api_sports_service.py lines 119-286): a single
rate_limiter.acquire, then the bounded retry loop. -/
def makeRequest (maxRetries : Nat) (backoff : ℚ) (responses : List HttpResp) :
    MRTrace :=
  mrLoop backoff responses maxRetries 0 0 [FetchEv.acq]

/-- Number of acquire events in a trace. -/
def acqCount (evs : List FetchEv) : Nat :=
  (evs.filter (fun e => e = FetchEv.acq)).length

/-- Number of network attempts in a trace. -/
def netCount (evs : List FetchEv) : Nat :=
  (evs.filter (fun e => e = FetchEv.net)).length

/-- Cache entry (cache_service.py lines 16-25): a value and an absolute
expiry instant; none models float inf (ttl ≤ 0 means never expires). -/
structure CacheEntry (α : Type) where
  value : α
  expiresAt : Option ℚ
deriving Repr, DecidableEq

/-- CacheEntry.__init__: expires_at = time.time() + ttl if ttl > 0 else inf. -/
def CacheEntry.mk' (v : α) (ttl : ℚ) (now : ℚ) : CacheEntry α :=
  ⟨v, if 0 < ttl then some (now + ttl) else none⟩

/-- CacheEntry.is_expired: time.time() > expires_at. -/
def CacheEntry.isExpired (e : CacheEntry α) (now : ℚ) : Bool :=
  match e.expiresAt with
  | none => false
  | some t => t < now

/-- CacheService state (cache_service.py lines 28-42).  The OrderedDict is a
key-entry association list in insertion order: the head is the
least-recently-used entry, next(iter(...)), and move_to_end appends at the
tail. -/
structure CacheService (α : Type) where
  settings : Settings
  enabled : Bool
  maxSize : Nat
  cache : List (String × CacheEntry α)
  hits : Nat
  misses : Nat
  evictions : Nat
deriving Repr, DecidableEq

/-- CacheService.__init__. -/
def CacheService.init (α : Type) (st : Settings) : CacheService α :=
  ⟨st, st.cacheEnabled, st.cacheMaxSize, [], 0, 0, 0⟩

/-- Static TTL table of CacheService._get_ttl (lines 51-61), default 3600. -/
def getTtl (st : Settings) (cacheType : String) : ℚ :=
  if cacheType = "teams" then st.cacheTtlTeams
  else if cacheType = "fixtures_completed" then st.cacheTtlFixturesCompleted
  else if cacheType = "fixtures_upcoming" then st.cacheTtlFixturesUpcoming
  else if cacheType = "statistics" then st.cacheTtlStatistics
  else if cacheType = "standings" then st.cacheTtlStandings
  else if cacheType = "predictions" then st.cacheTtlPredictions
  else 3600

/-- First entry stored under a key (OrderedDict lookup; keys are unique). -/
def lookupPair (c : List (String × CacheEntry α)) (key : String) :
    Option (CacheEntry α) :=
  match c with
  | [] => none
  | (k, e) :: rest => if k = key then some e else lookupPair rest key

/-- OrderedDict del: drop the entry stored under the key. -/
def erasePair (c : List (String × CacheEntry α)) (key : String) :
    List (String × CacheEntry α) :=
  c.filter (fun p => p.1 ≠ key)

/-- OrderedDict.move_to_end: the entry moves to the most-recently-used end. -/
def moveToEnd (c : List (String × CacheEntry α)) (key : String) :
    List (String × CacheEntry α) :=
  match lookupPair c key with
  | none => c
  | some e => erasePair c key ++ [(key, e)]

/-- CacheService.get (lines 63-91). Returns the value found (none on a miss)
and the updated service state. -/
def CacheService.get (now : ℚ) (key : String) (s : CacheService α) :
    Option α × CacheService α :=
  if ¬ s.enabled then (none, s)
  else
    match lookupPair s.cache key with
    | some e =>
      if e.isExpired now then
        (none, { s with cache := erasePair s.cache key, misses := s.misses + 1 })
      else
        (some e.value, { s with cache := moveToEnd s.cache key, hits := s.hits + 1 })
    | none => (none, { s with misses := s.misses + 1 })

/-- The while-loop of CacheService.set (lines 106-111): evict the head while
the size is at least max_size.  Returns none when next(iter(...)) would raise
StopIteration on an empty dict (only possible when max_size is zero). -/
def evictLoop (maxSize : Nat) :
    List (String × CacheEntry α) → Nat →
    Option (List (String × CacheEntry α) × Nat)
  | [], evictions =>
    if maxSize = 0 then none else some ([], evictions)
  | p :: rest, evictions =>
    if maxSize ≤ (p :: rest).length then evictLoop maxSize rest (evictions + 1)
    else some (p :: rest, evictions)

/-- CacheService.set (lines 93-122): delete an existing entry for the key,
evict from the LRU end down to below max_size, then append the fresh entry
at the most-recently-used end. -/
def CacheService.set (now : ℚ) (key : String) (v : α) (cacheType : String)
    (s : CacheService α) : Option (CacheService α) :=
  if ¬ s.enabled then some s
  else
    let ttl := getTtl s.settings cacheType
    match evictLoop s.maxSize (erasePair s.cache key) s.evictions with
    | none => none
    | some (c1, ev) =>
      some { s with cache := c1 ++ [(key, CacheEntry.mk' v ttl now)],
                    evictions := ev }

/-- Does the haystack start with the pattern. -/
def matchesAt : List Char → List Char → Bool
  | [], _ => true
  | _ :: _, [] => false
  | p :: ps, h :: hs => p = h && matchesAt ps hs

/-- Does the pattern occur anywhere in the haystack. -/
def subAt : List Char → List Char → Bool
  | pat, [] => pat.isEmpty
  | pat, h :: hs => matchesAt pat (h :: hs) || subAt pat hs

/-- Substring test used by invalidate (Python: pattern in key). -/
def containsSub (hay pat : String) : Bool :=
  subAt pat.toList hay.toList

/-- CacheService.invalidate (lines 124-147). -/
def CacheService.invalidate (pat : Option String) (s : CacheService α) :
    Nat × CacheService α :=
  if ¬ s.enabled then (0, s)
  else
    match pat with
    | none => (s.cache.length, { s with cache := [] })
    | some p =>
      let keep := s.cache.filter (fun kv => ¬ containsSub kv.1 p)
      (s.cache.length - keep.length, { s with cache := keep })

/-- CacheService.cleanup_expired (lines 149-167). -/
def CacheService.cleanupExpired (now : ℚ) (s : CacheService α) :
    Nat × CacheService α :=
  if ¬ s.enabled then (0, s)
  else
    let keep := s.cache.filter (fun kv => ¬ kv.2.isExpired now)
    (s.cache.length - keep.length, { s with cache := keep })

/-- One cache-store operation with the wall-clock instant it runs at. -/
inductive CacheCall (α : Type) where
  | get (now : ℚ) (key : String)
  | set (now : ℚ) (key : String) (v : α) (cacheType : String)
  | invalidate (pat : Option String)
  | cleanup (now : ℚ)
deriving Repr

/-- Run a sequence of cache-store operations; none signals the StopIteration
crash of set with max_size zero. -/
def runCalls : List (CacheCall α) → CacheService α → Option (CacheService α)
  | [], s => some s
  | c :: rest, s =>
    match c with
    | .get now key => runCalls rest (CacheService.get now key s).2
    | .set now key v ct =>
      match CacheService.set now key v ct s with
      | none => none
      | some s' => runCalls rest s'
    | .invalidate pat => runCalls rest (CacheService.invalidate pat s).2
    | .cleanup now => runCalls rest (CacheService.cleanupExpired now s).2

/-- JSON string escaping for the two characters that occur in practice in
parameter keys and values (json.dumps escapes more control characters, which
never occur in this service's parameters). -/
def escJson (s : String) : String :=
  String.mk (s.toList.flatMap (fun c =>
    if c = '"' then ['\\', '"']
    else if c = '\\' then ['\\', '\\']
    else [c]))

/-- Ordering of parameter pairs by key, as used by sort_keys=True. -/
def keyLe (a b : String × String) : Prop := a.1 ≤ b.1

instance : DecidableRel keyLe := fun a b => inferInstanceAs (Decidable (a.1 ≤ b.1))

instance : IsTotal (String × String) keyLe :=
  ⟨fun a b => le_total a.1 b.1⟩

instance : IsTrans (String × String) keyLe :=
  ⟨fun _ _ _ h1 h2 => le_trans h1 h2⟩

/-- json.dumps(params, sort_keys=True) for a flat dict of string values
(every parameter this service caches under is stringified before the call):
keys sorted, default separators. -/
def dumpsSorted (params : List (String × String)) : String :=
  let sorted := List.insertionSort keyLe params
  "\x7b" ++
    String.intercalate ", "
      (sorted.map (fun p => "\"" ++ escJson p.1 ++ "\": \"" ++ escJson p.2 ++ "\"")) ++
    "\x7d"

/-- CacheService._generate_key (cache_service.py lines 44-49).  The md5
hexdigest is an opaque 32-character hexadecimal function of the serialized
parameters; it enters the embedding as the parameter H. -/
def generateKey (H : String → String) (pfx : String)
    (params : List (String × String)) : String :=
  pfx ++ ":" ++ H (dumpsSorted params)

/-- Association-list lookup of a parameter value (dict equality is equality
of this function on all keys). -/
def lookupParam (params : List (String × String)) (k : String) : Option String :=
  match params with
  | [] => none
  | (k', v) :: rest => if k' = k then some v else lookupParam rest k

/-- Python truthiness of an optional string argument. -/
def truthyS : Option String → Bool
  | none => false
  | some s => s ≠ ""

/-- Python truthiness of an optional integer argument. -/
def truthyI : Option Int → Bool
  | none => false
  | some n => n ≠ 0

/-- Numeric value of two digit characters. -/
def twoVal (a b : Char) : Nat := (a.toNat - 48) * 10 + (b.toNat - 48)

/-- Acceptance check of datetime.strptime(s, zero-padded year-month-day):
ten characters, four digit year, two digit month 01-12, two digit day 01-31
separated by dashes.  This abstracts the CPython strptime day-in-month rules,
which no claim depends on. -/
def validDate (s : String) : Bool :=
  match s.toList with
  | [y1, y2, y3, y4, '-', m1, m2, '-', d1, d2] =>
    (y1.isDigit && y2.isDigit && y3.isDigit && y4.isDigit &&
     m1.isDigit && m2.isDigit && d1.isDigit && d2.isDigit) &&
    (1 ≤ twoVal m1 m2 && twoVal m1 m2 ≤ 12) &&
    (1 ≤ twoVal d1 d2 && twoVal d1 d2 ≤ 31)
  | _ => false

/-- Arguments of ApiSportsService.search_fixtures (lines 646-662). -/
structure SFArgs where
  id : Option Int := none
  ids : Option String := none
  live : Option String := none
  date : Option String := none
  league : Option Int := none
  season : Option Int := none
  team : Option Int := none
  last : Option Int := none
  next : Option Int := none
  fromDate : Option String := none
  toDate : Option String := none
  round : Option String := none
  status : Option String := none
  venue : Option Int := none
  timezone : Option String := none
deriving Repr, DecidableEq

/-- Parameter validation of search_fixtures (lines 671-721), first failing
check wins; none means validation passed. -/
def validate (a : SFArgs) : Option String :=
  if a.league ≠ none ∧ a.season = none then
    some "When using 'league' parameter, 'season' is required"
  else if a.team ≠ none ∧ a.season = none then
    some "When using 'team' parameter, 'season' is required"
  else if truthyI a.last ∧ 99 < a.last.getD 0 then
    some "Last parameter must be 2 digits or less"
  else if truthyI a.next ∧ 99 < a.next.getD 0 then
    some "Next parameter must be 2 digits or less"
  else if truthyS a.date ∧ ¬ validDate (a.date.getD "") then
    some "Date must be in YYYY-MM-DD format"
  else if truthyS a.fromDate ∧ ¬ validDate (a.fromDate.getD "") then
    some "From date must be in YYYY-MM-DD format"
  else if truthyS a.toDate ∧ ¬ validDate (a.toDate.getD "") then
    some "To date must be in YYYY-MM-DD format"
  else none

/-- Python dict assignment: replace in place when the key exists, else append. -/
def setParam (params : List (String × String)) (k v : String) :
    List (String × String) :=
  if (lookupParam params k).isSome then
    params.map (fun p => if p.1 = k then (k, v) else p)
  else params ++ [(k, v)]

/-- Guard of the branch at lines 741-742: team present, season absent, and
all of date, from_date, last, next, id, ids, live falsy. -/
def autoNextCond (a : SFArgs) : Bool :=
  a.team.isSome && a.season.isNone && !truthyS a.date && !truthyS a.fromDate &&
  !truthyI a.last && !truthyI a.next && !truthyI a.id && !truthyS a.ids &&
  !truthyS a.live

/-- Parameter-dict construction of search_fixtures (lines 723-763), including
the branch at 739-747 that auto-inserts a next-ten window for a team-only
query; the returned flag records whether that branch ran. -/
def buildParams (a : SFArgs) : List (String × String) × Bool :=
  let ps : List (String × String) := []
  let ps := if a.id ≠ none then setParam ps "id" (toString (a.id.getD 0)) else ps
  let ps := if truthyS a.ids then setParam ps "ids" (a.ids.getD "") else ps
  let ps := if truthyS a.live then setParam ps "live" (a.live.getD "") else ps
  let ps := if truthyS a.date then setParam ps "date" (a.date.getD "") else ps
  let ps := if a.league ≠ none then setParam ps "league" (toString (a.league.getD 0)) else ps
  let ps := if a.season ≠ none then setParam ps "season" (toString (a.season.getD 0)) else ps
  let ps :=
    if a.team ≠ none then
      let ps := setParam ps "team" (toString (a.team.getD 0))
      if autoNextCond a then setParam ps "next" "10" else ps
    else ps
  let ps := if a.last ≠ none then setParam ps "last" (toString (a.last.getD 0)) else ps
  let ps := if a.next ≠ none then setParam ps "next" (toString (a.next.getD 0)) else ps
  let ps := if truthyS a.fromDate then setParam ps "from" (a.fromDate.getD "") else ps
  let ps := if truthyS a.toDate then setParam ps "to" (a.toDate.getD "") else ps
  let ps := if truthyS a.round then setParam ps "round" (a.round.getD "") else ps
  let ps := if truthyS a.status then setParam ps "status" (a.status.getD "") else ps
  let ps := if a.venue ≠ none then setParam ps "venue" (toString (a.venue.getD 0)) else ps
  let ps := if truthyS a.timezone then setParam ps "timezone" (a.timezone.getD "") else ps
  (ps, autoNextCond a)

/-- One cache interaction of search_fixtures. -/
inductive CacheEv where
  /-- cache_service.get_fixtures (read path, lines 772-779). -/
  | read
  /-- cache_service.set_fixtures under the given category (lines 879-887). -/
  | write (cacheType : String)
deriving Repr, DecidableEq

/-- Result envelope of search_fixtures, restricted to what the claims
inspect: which branch produced it and, on a fresh fetch, the short status
codes of the returned fixtures. -/
inductive SFRes where
  | validationError (msg : String)
  | cachedHit
  | ok (statuses : List String)
  | fetchFailed (msg : String)
deriving Repr, DecidableEq

/-- Observable outcome of one search_fixtures execution. -/
structure SFOutcome where
  result : SFRes
  events : List CacheEv
  autoNext : Bool
  params : List (String × String)
deriving Repr, DecidableEq

/-- Terminal short status codes (line 882). -/
def completedStatuses : List String :=
  ["FT", "AET", "PEN", "PST", "CANC", "ABD", "AWD", "WO"]

/-- Cache category chosen by set_fixtures from the all-completed flag
(lines 881-887 and cache_service.py lines 207-211). -/
def fixturesCategory (statuses : List String) : String :=
  if statuses.all (fun st => st ∈ completedStatuses) then "fixtures_completed"
  else "fixtures_upcoming"

/-- ApiSportsService.search_fixtures (lines 646-904), sliced to validation,
parameter building and the cache policy.  `cacheAvail` is whether a cache
service is attached; `cached` is what get_fixtures returns on the read path
(a stored result dict is always truthy); `fetched` is the outcome of the
upstream fetch, reduced to the fixtures' short status codes (an exception
anywhere in the try block lands in the error envelope of lines 896-904). -/
def searchFixtures (a : SFArgs) (cacheAvail : Bool) (cached : Option Unit)
    (fetched : Except String (List String)) : SFOutcome :=
  match validate a with
  | some msg => ⟨.validationError msg, [], false, []⟩
  | none =>
    let pa := buildParams a
    let liveT := truthyS a.live
    if liveT = false ∧ cacheAvail = true ∧ cached.isSome = true then
      ⟨.cachedHit, [.read], pa.2, pa.1⟩
    else
      let evs := if liveT = false ∧ cacheAvail = true then [CacheEv.read] else []
      match fetched with
      | .error e => ⟨.fetchFailed e, evs, pa.2, pa.1⟩
      | .ok statuses =>
        if liveT = false ∧ statuses.isEmpty = false ∧ cacheAvail = true then
          ⟨.ok statuses, evs ++ [.write (fixturesCategory statuses)], pa.2, pa.1⟩
        else ⟨.ok statuses, evs, pa.2, pa.1⟩

/-- A clean 200 response body. -/
def okBody : ApiResponse := ⟨.list [], 1, ["NS"]⟩

/-- A 200 response with an empty errors list. -/
def respOk : HttpResp := { status := 200, body := some okBody }

/-- A bare 500 response. -/
def respErr500 : HttpResp := { status := 500 }

/-- A 429 response advising a one-second retry delay. -/
def resp429ra1 : HttpResp := { status := 429, retryAfter := some 1 }

/-- A 429 response without a Retry-After header. -/
def resp429noRa : HttpResp := { status := 429 }

/-- A 200 response whose body carries a populated application-level errors
field. -/
def respAppErr : HttpResp := { status := 200, body := some ⟨.list ["bad key"], 0, []⟩ }

/-- A rate limiter with a one-call-per-minute ceiling and no recorded calls. -/
def rlOne : RateLimiter := ⟨1, 100, [], []⟩

/-- The state of rlOne after one successful acquire at instant 0. -/
def rlOneUsed : RateLimiter := ⟨1, 100, [0], [0]⟩

/-- Settings with a two-entry cache, as in the LRU eviction scenario. -/
def lruSettings : Settings := { cacheMaxSize := 2 }

/-- The LRU scenario: insert key1, insert key2, read key1, insert key3. -/
def lruCalls : List (CacheCall String) :=
  [.set 0 "key1" "v1" "teams", .set 1 "key2" "v2" "teams",
   .get 2 "key1", .set 3 "key3" "v3" "teams"]

/-- A fixtures query filtered by date only. -/
def sfDate : SFArgs := { date := some "2024-01-01" }

/-- A live-flagged fixtures query. -/
def sfLive : SFArgs := { live := some "all" }

/-- A fixtures query with team and league but no season. -/
def sfTeamLeague : SFArgs := { team := some 3, league := some 5 }

/-- A stand-in md5 hexdigest: a constant 32-character hexadecimal string
(witnesses only need some function whose outputs have the digest length). -/
def hexConst : String → String :=
  fun _ => String.mk (List.replicate 32 '0')

/-- Strict ordering of parameter pairs by key. -/
def keyLt (a b : String × String) : Prop := a.1 < b.1

instance : IsAntisymm (String × String) keyLt :=
  ⟨fun _ _ h1 h2 => absurd h2 (lt_asymm h1)⟩

/-- Cache state after writing one teams entry at instant 0 into a fresh
default-configured cache (round-trip witness state). -/
def c8state : CacheService String :=
  (CacheService.set 0 "k" "v" "teams" (CacheService.init String {})).getD
    (CacheService.init String {})

/-- C6: with backoff factor two and three attempts allowed, the simulated
response sequence 500, 500, 200 succeeds on the third attempt (0-based
attempt index 2), sleeping one second after the first failure and two seconds
after the second, and returns the parsed 200 payload; each 5xx retry
consumed one unit of the attempt counter. -/
theorem retry_backoff_500_500_200 :
    makeRequest 3 2 [respErr500, respErr500, respOk] =
      ⟨.ok (okBody, 2),
       [.acq, .net, .sleep 1, .net, .sleep 2, .net]⟩ := by
  decide

/-- C1 counterexample: the 429 compliance wait does consume the bounded
attempt counter.  With the response sequence 429 (Retry-After 1) then 200 and
max_retries 1, the claim's uncounted-wait reading predicts a successful
retry; the code instead exhausts its single attempt and fails, and with
max_retries 2 the success lands on attempt index 1, not 0. -/
theorem retry429_consumes_attempt_cex :
    makeRequest 1 2 [resp429ra1, respOk] =
      ⟨.error .exhausted, [.acq, .net, .sleep 1]⟩ ∧
    (makeRequest 2 2 [resp429ra1, respOk]).outcome = .ok (okBody, 1) := by
  decide

/-- C1 amended: on a 429 the fetcher sleeps for the server-advised
Retry-After delay (60 seconds when the header is absent) and retries, but the
retry advances the bounded attempt counter: with responses 429 (Retry-After
1) then 200 and max_retries 2 the call succeeds on attempt index 1 after
sleeping one second; the same sequence under max_retries 1 exhausts the
attempts and fails. -/
theorem retry429_behaviour :
    makeRequest 2 2 [resp429ra1, respOk] =
      ⟨.ok (okBody, 1), [.acq, .net, .sleep 1, .net]⟩ ∧
    makeRequest 2 2 [resp429noRa, respOk] =
      ⟨.ok (okBody, 1), [.acq, .net, .sleep 60, .net]⟩ ∧
    makeRequest 1 2 [resp429ra1, respOk] =
      ⟨.error .exhausted, [.acq, .net, .sleep 1]⟩ := by
  decide

/-- C2 counterexample: a 200 response with a populated application-level
errors field is not a hard failure when attempts remain.  With max_retries 2
and responses error-carrying 200 then clean 200, the ValueError raised for
the first body is swallowed by the generic exception handler, a second
attempt runs after a backoff sleep, and the call succeeds. -/
theorem app_error_retried_cex :
    makeRequest 2 2 [respAppErr, respOk] =
      ⟨.ok (okBody, 1), [.acq, .net, .sleep 1, .net]⟩ := by
  decide

/-- C2 amended: a 200 response with a populated errors field raises a
ValueError surfacing the application error text, but the generic exception
handler retries it with exponential backoff while attempts remain; the call
fails without a second attempt only when the erroring attempt is the final
one (max_retries 1 here; with max_retries 2 a second attempt runs before the
same error is surfaced). -/
theorem app_error_surfaced :
    makeRequest 1 2 [respAppErr] =
      ⟨.error (.apiError "API Error: bad key"), [.acq, .net]⟩ ∧
    makeRequest 2 2 [respAppErr, respAppErr] =
      ⟨.error (.apiError "API Error: bad key"),
       [.acq, .net, .sleep 1, .net]⟩ := by
  decide

/-- C4: the code path of the claim deadlocks instead of succeeding.  With a
one-call-per-minute ceiling, the first acquire at instant 0 returns at once
with no suspension and records its call; the second acquire at instant 10
computes the fifty-second wait, sleeps, and then re-enters acquire while the
asyncio.Lock is still held by the same task — asyncio locks are not
reentrant, so the task blocks forever (for every fuel bound). -/
theorem acquire_second_call_deadlocks :
    ∀ fuel : Nat,
      RateLimiter.acquire (fuel + 1) 0 rlOne = .ok rlOneUsed [] ∧
      RateLimiter.acquire (fuel + 2) 10 rlOneUsed = .deadlock [50] := by
  intro fuel
  constructor
  · show acquireAux (fuel + 1) false 0 rlOne [] = .ok rlOneUsed []
    simp [acquireAux, rlOne, rlOneUsed]
  · show acquireAux (fuel + 2) false 10 rlOneUsed [] = .deadlock [50]
    have h1 : acquireAux (fuel + 2) false 10 rlOneUsed [] =
        acquireAux (fuel + 1) true 60 ⟨1, 100, [0], [0]⟩ [50] := by
      simp [acquireAux, rlOneUsed]
      norm_num
    rw [h1]
    rfl

/-- Acquire events of an event-list concatenation split additively. -/
theorem acqCount_append (l1 l2 : List FetchEv) :
    acqCount (l1 ++ l2) = acqCount l1 + acqCount l2 := by
  simp [acqCount, List.filter_append]

/-- No acquire event among a network event and a backoff sleep. -/
theorem acqCount_netSleep (d : ℚ) :
    acqCount [FetchEv.net, FetchEv.sleep d] = 0 := rfl

/-- No acquire event in a lone network event. -/
theorem acqCount_netOne : acqCount [FetchEv.net] = 0 := rfl

/-- No acquire event in a lone sleep event. -/
theorem acqCount_sleepOne (d : ℚ) : acqCount [FetchEv.sleep d] = 0 := rfl

/-- The retry loop never calls RateLimiter.acquire: its trace extends the
incoming trace with network and sleep events only. -/
theorem mrLoop_acqCount (b : ℚ) (rs : List HttpResp) :
    ∀ fuel attempt gi evs,
      acqCount (mrLoop b rs fuel attempt gi evs).events = acqCount evs := by
  intro fuel
  induction fuel with
  | zero => intro attempt gi evs; rfl
  | succ n ih =>
    intro attempt gi evs
    rw [mrLoop]
    cases h : rs[gi]? with
    | none =>
      by_cases h0 : n = 0 <;>
        simp [h0, ih, acqCount_append, acqCount_netSleep, acqCount_netOne]
    | some r =>
      by_cases h429 : r.status = 429
      · simp [h429, ih, acqCount_append, acqCount_netOne, acqCount_sleepOne, acqCount_netSleep]
      · by_cases h5 : 500 ≤ r.status ∧ n ≠ 0
        · simp [h429, h5, ih, acqCount_append, acqCount_netOne, acqCount_sleepOne, acqCount_netSleep]
        · by_cases h200 : r.status ≠ 200
          · by_cases h0 : n = 0 <;>
              simp [h429, h5, h200, h0, ih, acqCount_append, acqCount_netOne,
                acqCount_sleepOne, acqCount_netSleep]
          · cases hb : r.body with
            | none =>
              simp [h429, h5, h200, hb, acqCount_append, acqCount_netOne]
            | some ar =>
              by_cases he : ar.errors.truthy = true ∧ ar.errors.message ≠ ""
              · by_cases h0 : n = 0 <;>
                  simp [h429, h5, h200, hb, he, h0, ih, acqCount_append,
                    acqCount_netOne, acqCount_sleepOne, acqCount_netSleep]
              · simp [h429, h5, h200, hb, he, acqCount_append, acqCount_netOne]

/-- C3 counterexample: an execution with two network attempts performs one
acquire call, not two.  With responses 500 then 200 and max_retries 2 the
call retries and succeeds on the second attempt, yet the rate limiter was
acquired only once, before the first attempt. -/
theorem acquire_per_attempt_cex :
    netCount (makeRequest 2 2 [respErr500, respOk]).events = 2 ∧
    acqCount (makeRequest 2 2 [respErr500, respOk]).events = 1 ∧
    (makeRequest 2 2 [respErr500, respOk]).outcome = .ok (okBody, 1) := by
  decide

/-- C3 amended: RateLimiter.acquire is called exactly once per make_request
invocation, as the first event, before the first network attempt; retry
attempts do not re-acquire. -/
theorem acquire_once_per_request :
    ∀ (maxRetries : Nat) (backoff : ℚ) (responses : List HttpResp),
      acqCount (makeRequest maxRetries backoff responses).events = 1 ∧
      (makeRequest maxRetries backoff responses).events.head? = some .acq := by
  intro maxRetries backoff responses
  constructor
  · rw [makeRequest, mrLoop_acqCount]
    rfl
  · rw [makeRequest]
    have h : ∀ fuel attempt gi evs e,
        (mrLoop backoff responses fuel attempt gi (e :: evs)).events.head? =
          some e := by
      intro fuel
      induction fuel with
      | zero => intro attempt gi evs e; rfl
      | succ n ih =>
        intro attempt gi evs e
        rw [mrLoop]
        cases h : responses[gi]? with
        | none =>
          by_cases h0 : n = 0
          · simp [h0]
          · simpa [h0, List.cons_append] using ih _ _ _ _
        | some r =>
          by_cases h429 : r.status = 429
          · simpa [h429, List.cons_append] using ih _ _ _ _
          · by_cases h5 : 500 ≤ r.status ∧ n ≠ 0
            · simpa [h429, h5, List.cons_append] using ih _ _ _ _
            · by_cases h200 : r.status ≠ 200
              · by_cases h0 : n = 0
                · simp [h429, h5, h200, h0]
                · simpa [h429, h5, h200, h0, List.cons_append] using ih _ _ _ _
              · cases hb : r.body with
                | none => simp [h429, h5, h200, hb]
                | some ar =>
                  by_cases he : ar.errors.truthy = true ∧ ar.errors.message ≠ ""
                  · by_cases h0 : n = 0
                    · simp [h429, h5, h200, hb, he, h0]
                    · simpa [h429, h5, h200, hb, he, h0, List.cons_append]
                        using ih _ _ _ _
                  · simp [h429, h5, h200, hb, he]
    exact h maxRetries 0 0 [] .acq

/-- When the eviction loop returns, the surviving list is strictly below the
maximum size. -/
theorem evictLoop_length {α : Type} (m : Nat) :
    ∀ (c : List (String × CacheEntry α)) (e : Nat) c' e',
      evictLoop m c e = some (c', e') → c'.length < m := by
  intro c
  induction c with
  | nil =>
    intro e c' e' h
    by_cases hm : m = 0
    · rw [evictLoop, if_pos hm] at h
      cases h
    · rw [evictLoop, if_neg hm] at h
      rw [Option.some.injEq, Prod.mk.injEq] at h
      rw [← h.1]
      exact Nat.pos_of_ne_zero hm
  | cons p rest ih =>
    intro e c' e' h
    rw [evictLoop] at h
    by_cases hle : m ≤ (p :: rest).length
    · rw [if_pos hle] at h
      exact ih _ _ _ h
    · rw [if_neg hle] at h
      rw [Option.some.injEq, Prod.mk.injEq] at h
      rw [← h.1]
      exact Nat.lt_of_not_le hle

/-- erasePair never lengthens the store. -/
theorem erasePair_length_le {α : Type} (c : List (String × CacheEntry α))
    (key : String) : (erasePair c key).length ≤ c.length :=
  List.length_filter_le _ _

/-- Removing a key that is present strictly shrinks the store. -/
theorem erasePair_length_lt {α : Type} :
    ∀ (c : List (String × CacheEntry α)) (key : String) (e : CacheEntry α),
      lookupPair c key = some e → (erasePair c key).length < c.length := by
  intro c
  induction c with
  | nil => intro key e h; rw [lookupPair] at h; cases h
  | cons p rest ih =>
    intro key e h
    rw [lookupPair] at h
    by_cases hk : p.1 = key
    · have h1 : (erasePair (p :: rest) key).length ≤ rest.length := by
        simp only [erasePair, List.filter_cons, hk]
        simp
        exact List.length_filter_le _ _
      calc (erasePair (p :: rest) key).length ≤ rest.length := h1
        _ < (p :: rest).length := by simp
    · rw [if_neg hk] at h
      have hrec := ih key e h
      simp only [erasePair, List.filter_cons] at hrec ⊢
      have hp : (decide (p.1 ≠ key)) = true := by simp [hk]
      rw [hp]
      simpa using Nat.succ_lt_succ hrec

/-- move_to_end never lengthens the store. -/
theorem moveToEnd_length_le {α : Type} (c : List (String × CacheEntry α))
    (key : String) : (moveToEnd c key).length ≤ c.length := by
  rw [moveToEnd]
  cases h : lookupPair c key with
  | none => exact Nat.le_refl _
  | some e =>
    have h1 := erasePair_length_lt c key e h
    simp only [List.length_append, List.length_cons, List.length_nil]
    omega

/-- CacheService.get only shrinks or reorders the store and keeps the size
bound. -/
theorem get_state {α : Type} (now : ℚ) (key : String) (s : CacheService α) :
    ((CacheService.get now key s).2).cache.length ≤ s.cache.length ∧
    ((CacheService.get now key s).2).maxSize = s.maxSize := by
  rw [CacheService.get]
  by_cases he : s.enabled = true
  · simp only [he, Bool.not_true, Bool.false_eq_true, if_false]
    cases h : lookupPair s.cache key with
    | none => exact ⟨Nat.le_refl _, rfl⟩
    | some e =>
      by_cases hex : e.isExpired now = true
      · simp only [hex, if_true]
        exact ⟨erasePair_length_le _ _, rfl⟩
      · simp only [hex, Bool.false_eq_true, if_false]
        exact ⟨moveToEnd_length_le _ _, rfl⟩
  · simp only [Bool.not_eq_true] at he
    simp [he]

/-- A successful CacheService.set leaves the store within the size bound and
keeps the bound itself. -/
theorem set_state {α : Type} (now : ℚ) (key : String) (v : α) (ct : String)
    (s s' : CacheService α) (h : CacheService.set now key v ct s = some s')
    (hs : s.cache.length ≤ s.maxSize) :
    s'.cache.length ≤ s'.maxSize := by
  rw [CacheService.set] at h
  by_cases he : s.enabled = true
  · simp only [he, Bool.not_true, Bool.false_eq_true, if_false] at h
    cases hev : evictLoop s.maxSize (erasePair s.cache key) s.evictions with
    | none => rw [hev] at h; cases h
    | some pr =>
      rw [hev] at h
      cases h
      have h1 := evictLoop_length s.maxSize (erasePair s.cache key) s.evictions
        pr.1 pr.2 (by rw [hev])
      simp only [List.length_append, List.length_cons, List.length_nil]
      omega
  · simp only [Bool.not_eq_true] at he
    simp [he] at h
    rw [← h]
    exact hs

/-- CacheService.invalidate only shrinks the store and keeps the bound. -/
theorem invalidate_state {α : Type} (pat : Option String) (s : CacheService α) :
    ((CacheService.invalidate pat s).2).cache.length ≤ s.cache.length ∧
    ((CacheService.invalidate pat s).2).maxSize = s.maxSize := by
  cases pat with
  | none =>
    rw [CacheService.invalidate]
    by_cases he : s.enabled = true
    · simp [he]
    · simp only [Bool.not_eq_true] at he
      simp [he]
  | some p =>
    rw [CacheService.invalidate]
    by_cases he : s.enabled = true
    · simp only [he, Bool.not_true, Bool.false_eq_true, if_false]
      exact ⟨List.length_filter_le _ _, rfl⟩
    · simp only [Bool.not_eq_true] at he
      simp [he]

/-- CacheService.cleanup_expired only shrinks the store and keeps the
bound. -/
theorem cleanup_state {α : Type} (now : ℚ) (s : CacheService α) :
    ((CacheService.cleanupExpired now s).2).cache.length ≤ s.cache.length ∧
    ((CacheService.cleanupExpired now s).2).maxSize = s.maxSize := by
  rw [CacheService.cleanupExpired]
  by_cases he : s.enabled = true
  · simp only [he, Bool.not_true, Bool.false_eq_true, if_false]
    exact ⟨List.length_filter_le _ _, rfl⟩
  · simp only [Bool.not_eq_true] at he
    simp [he]

/-- C7: the store never exceeds max_size.  First conjunct: across any
sequence of get, set, invalidate and cleanup operations that runs without a
StopIteration crash, a store within its bound stays within its bound.
Second conjunct: the LRU scenario — with max_size 2, after inserting key1 and
key2, reading key1 and inserting key3, the surviving keys are key1 and key3
(key2, the least recently used, was evicted) and the eviction counter is
exactly 1. -/
theorem cache_bound_and_lru_order :
    (∀ (α : Type) (calls : List (CacheCall α)) (s s' : CacheService α),
      runCalls calls s = some s' → s.cache.length ≤ s.maxSize →
      s'.cache.length ≤ s'.maxSize) ∧
    (runCalls lruCalls (CacheService.init String lruSettings)).map
        (fun s => (s.cache.map Prod.fst, s.evictions)) =
      some (["key1", "key3"], 1) := by
  constructor
  · intro α calls
    induction calls with
    | nil =>
      intro s s' h hs
      rw [runCalls] at h
      cases h
      exact hs
    | cons c rest ih =>
      intro s s' h hs
      cases c with
      | get now key =>
        rw [runCalls] at h
        have hst := get_state now key s
        exact ih _ _ h (by rw [hst.2]; exact le_trans hst.1 hs)
      | set now key v ct =>
        rw [runCalls] at h
        cases hset : CacheService.set now key v ct s with
        | none => rw [hset] at h; cases h
        | some s1 =>
          rw [hset] at h
          exact ih _ _ h (set_state now key v ct s s1 hset hs)
      | invalidate pat =>
        rw [runCalls] at h
        have hst := invalidate_state pat s
        exact ih _ _ h (by rw [hst.2]; exact le_trans hst.1 hs)
      | cleanup now =>
        rw [runCalls] at h
        have hst := cleanup_state now s
        exact ih _ _ h (by rw [hst.2]; exact le_trans hst.1 hs)
  · with_unfolding_all decide

/-- C7 witness: the size invariant applied to the empty call sequence on a
fresh two-entry cache. -/
theorem cache_bound_and_lru_order_witness :
    (CacheService.init String lruSettings).cache.length ≤
      (CacheService.init String lruSettings).maxSize :=
  cache_bound_and_lru_order.1 String [] _ _ rfl (by decide)

/-- A key is never found after erasePair removed it. -/
theorem erasePair_lookup {α : Type} :
    ∀ (c : List (String × CacheEntry α)) (key : String),
      lookupPair (erasePair c key) key = none := by
  intro c key
  induction c with
  | nil => rfl
  | cons p rest ih =>
    rw [erasePair, List.filter_cons]
    by_cases hk : p.1 = key
    · have hd : (decide ¬(p.1 = key)) = false := by simp [hk]
      rw [hd]
      simpa [erasePair] using ih
    · have hd : (decide ¬(p.1 = key)) = true := by simp [hk]
      rw [hd]
      simp only [if_true]
      rw [lookupPair, if_neg hk]
      simpa [erasePair] using ih

/-- The eviction loop drops entries from the front only, so a key absent
before stays absent. -/
theorem evictLoop_lookup {α : Type} (m : Nat) (key : String) :
    ∀ (c : List (String × CacheEntry α)) (e : Nat) c' e',
      evictLoop m c e = some (c', e') → lookupPair c key = none →
      lookupPair c' key = none := by
  intro c
  induction c with
  | nil =>
    intro e c' e' h hl
    by_cases hm : m = 0
    · rw [evictLoop, if_pos hm] at h
      cases h
    · rw [evictLoop, if_neg hm] at h
      rw [Option.some.injEq, Prod.mk.injEq] at h
      rw [← h.1]
      rfl
  | cons p rest ih =>
    intro e c' e' h hl
    rw [evictLoop] at h
    by_cases hle : m ≤ (p :: rest).length
    · rw [if_pos hle] at h
      rw [lookupPair] at hl
      by_cases hk : p.1 = key
      · rw [if_pos hk] at hl
        cases hl
      · rw [if_neg hk] at hl
        exact ih _ _ _ h hl
    · rw [if_neg hle] at h
      rw [Option.some.injEq, Prod.mk.injEq] at h
      rw [← h.1]
      exact hl

/-- Appending a fresh entry for an absent key makes it the one found. -/
theorem lookup_append_fresh {α : Type} :
    ∀ (c : List (String × CacheEntry α)) (key : String) (e : CacheEntry α),
      lookupPair c key = none →
      lookupPair (c ++ [(key, e)]) key = some e := by
  intro c
  induction c with
  | nil => intro key e _; simp [lookupPair]
  | cons p rest ih =>
    intro key e hl
    rw [lookupPair] at hl
    by_cases hk : p.1 = key
    · rw [if_pos hk] at hl
      cases hl
    · rw [if_neg hk] at hl
      rw [List.cons_append, lookupPair, if_neg hk]
      exact ih key e hl

/-- C8: cache round-trip and lazy expiry.  A set that succeeds with the
cache enabled is immediately readable back: get at the same instant returns
the stored value.  Once the category TTL is positive and strictly elapsed,
get returns a miss and, as a side effect, the expired entry is physically
removed from the store. -/
theorem cache_roundtrip_ttl :
    ∀ (α : Type) (key : String) (v : α) (ct : String) (now t' : ℚ)
      (s s1 : CacheService α),
      s.enabled = true →
      CacheService.set now key v ct s = some s1 →
      (CacheService.get now key s1).1 = some v ∧
      (0 < getTtl s.settings ct → now + getTtl s.settings ct < t' →
        (CacheService.get t' key s1).1 = none ∧
        lookupPair ((CacheService.get t' key s1).2).cache key = none) := by
  intro α key v ct now t' s s1 he hset
  rw [CacheService.set, if_neg (by simp [he])] at hset
  cases hev : evictLoop s.maxSize (erasePair s.cache key) s.evictions with
  | none => rw [hev] at hset; cases hset
  | some pr =>
    obtain ⟨c1, ev⟩ := pr
    rw [hev] at hset
    cases hset
    have hnone : lookupPair c1 key = none :=
      evictLoop_lookup s.maxSize key _ _ _ _ hev (erasePair_lookup s.cache key)
    have hlook : lookupPair
        (c1 ++ [(key, CacheEntry.mk' v (getTtl s.settings ct) now)]) key =
        some (CacheEntry.mk' v (getTtl s.settings ct) now) :=
      lookup_append_fresh c1 key _ hnone
    constructor
    · rw [CacheService.get]
      simp only [he, Bool.not_true, Bool.false_eq_true, if_false, hlook]
      have hexp : (CacheEntry.mk' v (getTtl s.settings ct) now).isExpired now
          = false := by
        rw [CacheEntry.mk', CacheEntry.isExpired]
        by_cases httl : 0 < getTtl s.settings ct
        · simp only [httl, if_true]
          simp only [decide_eq_false_iff_not, not_lt]
          linarith
        · simp [httl]
      simp only [CacheEntry.mk'] at hexp
      simp [CacheEntry.mk', hexp]
    · intro httl hgt
      have hexp : (CacheEntry.mk' v (getTtl s.settings ct) now).isExpired t'
          = true := by
        rw [CacheEntry.mk', CacheEntry.isExpired]
        simp only [httl, if_true]
        exact decide_eq_true hgt
      simp only [CacheEntry.mk'] at hexp hlook
      rw [CacheService.get]
      simp [he, CacheEntry.mk', hlook, hexp, erasePair_lookup]

/-- C8 witness: the round trip at concrete values — a teams entry written at
instant 0 into a fresh default cache reads back at instant 0 and is expired
and purged at instant 90000 (the teams TTL being 86400 seconds). -/
theorem cache_roundtrip_ttl_witness :
    (CacheService.get 0 "k" c8state).1 = some "v" ∧
    (0 < getTtl ({} : Settings) "teams" →
      (0 : ℚ) + getTtl ({} : Settings) "teams" < 90000 →
      (CacheService.get 90000 "k" c8state).1 = none ∧
      lookupPair ((CacheService.get 90000 "k" c8state).2).cache "k" = none) :=
  cache_roundtrip_ttl String "k" "v" "teams" 0 90000
    (CacheService.init String {}) c8state rfl rfl

/-- On a parameter list with distinct keys, lookup finds exactly the pairs
of the list. -/
theorem lookupParam_mem_iff :
    ∀ (l : List (String × String)), (l.map Prod.fst).Nodup →
      ∀ k v, (lookupParam l k = some v ↔ (k, v) ∈ l) := by
  intro l
  induction l with
  | nil => intro _ k v; simp [lookupParam]
  | cons p rest ih =>
    intro hn k v
    rw [List.map_cons, List.nodup_cons] at hn
    rw [lookupParam]
    by_cases hk : p.1 = k
    · rw [if_pos hk]
      constructor
      · intro h
        rw [Option.some.injEq] at h
        exact List.mem_cons.mpr (Or.inl (by rw [← hk, ← h]))
      · intro h
        rcases List.mem_cons.mp h with h1 | h1
        · cases h1; rfl
        · exact absurd (hk ▸ List.mem_map_of_mem Prod.fst h1) hn.1
    · rw [if_neg hk]
      rw [ih hn.2 k v]
      constructor
      · intro h; exact List.mem_cons_of_mem _ h
      · intro h
        rcases List.mem_cons.mp h with h1 | h1
        · exact absurd (congrArg Prod.fst h1).symm hk
        · exact h1

/-- Two parameter dicts with distinct keys and the same key-value mapping
are permutations of each other. -/
theorem params_perm (l1 l2 : List (String × String))
    (h1 : (l1.map Prod.fst).Nodup) (h2 : (l2.map Prod.fst).Nodup)
    (he : ∀ k, lookupParam l1 k = lookupParam l2 k) : l1.Perm l2 := by
  refine (List.perm_ext_iff_of_nodup (h1.of_map) (h2.of_map)).mpr ?_
  rintro ⟨k, v⟩
  rw [← lookupParam_mem_iff l1 h1 k v, ← lookupParam_mem_iff l2 h2 k v, he k]

/-- A list sorted by key order whose keys are distinct is sorted by strict
key order. -/
theorem sorted_keyLt_of_nodup (l : List (String × String))
    (hs : List.Sorted keyLe l) (hn : (l.map Prod.fst).Nodup) :
    List.Sorted keyLt l := by
  have hne : List.Pairwise (fun a b : String × String => a.1 ≠ b.1) l :=
    List.pairwise_map.mp hn
  exact (hs.and hne).imp fun hab => lt_of_le_of_ne hab.1 hab.2

/-- Serialization with sorted keys depends on the parameter dict only
through its key-value mapping. -/
theorem dumpsSorted_canonical (l1 l2 : List (String × String))
    (h1 : (l1.map Prod.fst).Nodup) (h2 : (l2.map Prod.fst).Nodup)
    (he : ∀ k, lookupParam l1 k = lookupParam l2 k) :
    dumpsSorted l1 = dumpsSorted l2 := by
  have hsort : List.insertionSort keyLe l1 = List.insertionSort keyLe l2 := by
    apply List.eq_of_perm_of_sorted (r := keyLt)
    · exact (List.perm_insertionSort keyLe l1).trans
        ((params_perm l1 l2 h1 h2 he).trans
          (List.perm_insertionSort keyLe l2).symm)
    · exact sorted_keyLt_of_nodup _ (List.sorted_insertionSort keyLe l1)
        (((List.perm_insertionSort keyLe l1).map Prod.fst).nodup_iff.mpr h1)
    · exact sorted_keyLt_of_nodup _ (List.sorted_insertionSort keyLe l2)
        (((List.perm_insertionSort keyLe l2).map Prod.fst).nodup_iff.mpr h2)
  rw [dumpsSorted, dumpsSorted, hsort]

/-- C9: cache keys are parameter-order independent and category-prefixed.
First conjunct: for any digest function, two parameter dicts with distinct
keys and equal key-value mappings produce the same cache key under the same
category, regardless of insertion order.  Second conjunct: when the digest
is 32 characters long (as an md5 hexdigest always is), keys built from
different category strings never collide, because the category is prepended
verbatim ahead of the colon separator. -/
theorem cache_key_order_independent :
    (∀ (H : String → String) (pfx : String)
      (p1 p2 : List (String × String)),
      (p1.map Prod.fst).Nodup → (p2.map Prod.fst).Nodup →
      (∀ k, lookupParam p1 k = lookupParam p2 k) →
      generateKey H pfx p1 = generateKey H pfx p2) ∧
    (∀ (H : String → String) (pfx1 pfx2 : String)
      (p1 p2 : List (String × String)),
      (∀ t, (H t).length = 32) → pfx1 ≠ pfx2 →
      generateKey H pfx1 p1 ≠ generateKey H pfx2 p2) := by
  constructor
  · intro H pfx p1 p2 h1 h2 he
    rw [generateKey, generateKey, dumpsSorted_canonical p1 p2 h1 h2 he]
  · intro H pfx1 pfx2 p1 p2 hlen hne heq
    apply hne
    rw [generateKey, generateKey] at heq
    have hd := congrArg String.data heq
    rw [String.data_append, String.data_append, String.data_append,
      String.data_append] at hd
    have hl : (H (dumpsSorted p1)).data.length =
        (H (dumpsSorted p2)).data.length := by
      have e1 : (H (dumpsSorted p1)).data.length =
          (H (dumpsSorted p1)).length := rfl
      have e2 : (H (dumpsSorted p2)).data.length =
          (H (dumpsSorted p2)).length := rfl
      rw [e1, e2, hlen, hlen]
    obtain ⟨hpre, _⟩ := List.append_inj' hd hl
    obtain ⟨hp, _⟩ := List.append_inj' hpre rfl
    calc pfx1 = String.mk pfx1.data := rfl
      _ = String.mk pfx2.data := by rw [hp]
      _ = pfx2 := rfl

/-- C9 witness: under a constant 32-character digest stand-in, the key for
the parameters a-1, b-2 equals the key computed from the reversed insertion
order b-2, a-1, and the teams and fixtures categories give distinct keys. -/
theorem cache_key_order_independent_witness :
    generateKey hexConst "fixtures" [("a", "1"), ("b", "2")] =
      generateKey hexConst "fixtures" [("b", "2"), ("a", "1")] ∧
    generateKey hexConst "teams" [("a", "1")] ≠
      generateKey hexConst "fixtures" [("a", "1")] := by
  constructor
  · refine cache_key_order_independent.1 hexConst "fixtures" _ _
      (by decide) (by decide) ?_
    intro k
    by_cases ha : "a" = k
    · subst ha; decide
    · by_cases hb : "b" = k
      · subst hb; decide
      · simp [lookupParam, ha, hb]
  · exact cache_key_order_independent.2 hexConst "teams" "fixtures" _ _
      (fun t => rfl) (by decide)

/-- The auto-next flag returned by buildParams is its guard. -/
theorem buildParams_snd (a : SFArgs) : (buildParams a).2 = autoNextCond a := rfl

/-- C5 counterexample: a non-live query whose returned fixture batch is
empty — so that every returned fixture vacuously carries a terminal status —
is not stored at all: the trace holds the cache read but no write, because
the write path also requires a non-empty batch. -/
theorem fixtures_empty_batch_not_cached_cex :
    (([] : List String).all (fun st => st ∈ completedStatuses)) = true ∧
    (searchFixtures sfDate true none (.ok [])).events = [CacheEv.read] := by
  decide

/-- C5 amended: a live-flagged query bypasses the cache on both paths (no
cache event at all, and the outcome does not depend on what the cache
holds); a non-live query that passes validation and returns at least one
fixture is stored after a cache miss under fixtures_completed when every
short status is terminal and under fixtures_upcoming otherwise. -/
theorem fixtures_cache_policy :
    (∀ (a : SFArgs) (cav : Bool) (c1 c2 : Option Unit)
        (f : Except String (List String)),
      truthyS a.live = true →
      (searchFixtures a cav c1 f).events = [] ∧
      searchFixtures a cav c1 f = searchFixtures a cav c2 f) ∧
    (∀ (a : SFArgs) (sts : List String),
      truthyS a.live = false → validate a = none → sts ≠ [] →
      (searchFixtures a true none (.ok sts)).events =
        [.read, .write (fixturesCategory sts)] ∧
      (sts.all (fun st => st ∈ completedStatuses) = true →
        fixturesCategory sts = "fixtures_completed") ∧
      (sts.all (fun st => st ∈ completedStatuses) = false →
        fixturesCategory sts = "fixtures_upcoming")) := by
  constructor
  · intro a cav c1 c2 f hlive
    cases hv : validate a with
    | some msg => constructor <;> simp [searchFixtures, hv]
    | none =>
      cases f with
      | error e => constructor <;> simp [searchFixtures, hv, hlive]
      | ok sts => constructor <;> simp [searchFixtures, hv, hlive]
  · intro a sts hlive hv hne
    refine ⟨?_, ?_, ?_⟩
    · cases sts with
      | nil => exact absurd rfl hne
      | cons s0 rest => simp [searchFixtures, hv, hlive]
    · intro hall; simp [fixturesCategory, hall]
    · intro hall; simp [fixturesCategory, hall]

/-- C5 witness: at concrete inputs — a live query leaves no cache events,
and a date query returning one finished and one not-started fixture is
written under fixtures_upcoming. -/
theorem fixtures_cache_policy_witness :
    ((searchFixtures sfLive true (some ()) (.ok ["NS"])).events = [] ∧
      searchFixtures sfLive true (some ()) (.ok ["NS"]) =
        searchFixtures sfLive true none (.ok ["NS"])) ∧
    (searchFixtures sfDate true none (.ok ["FT", "NS"])).events =
        [.read, .write (fixturesCategory ["FT", "NS"])] ∧
    ((["FT", "NS"] : List String).all (fun st => st ∈ completedStatuses) = true →
      fixturesCategory ["FT", "NS"] = "fixtures_completed") ∧
    ((["FT", "NS"] : List String).all (fun st => st ∈ completedStatuses) = false →
      fixturesCategory ["FT", "NS"] = "fixtures_upcoming") :=
  ⟨fixtures_cache_policy.1 sfLive true (some ()) none (.ok ["NS"]) (by decide),
   fixtures_cache_policy.2 sfDate ["FT", "NS"] (by decide) (by decide)
     (by decide)⟩

/-- C10 counterexample: a call with team provided and season absent does not
always return the team-specific validation error — when league is also
provided without a season, the league check fires first and the error text
is the league message, not the team message. -/
theorem team_without_season_cex :
    sfTeamLeague.team = some 3 ∧ sfTeamLeague.season = none ∧
    (searchFixtures sfTeamLeague true none (.ok [])).result =
      .validationError "When using 'league' parameter, 'season' is required" ∧
    ("When using 'league' parameter, 'season' is required" ≠
      "When using 'team' parameter, 'season' is required") := by
  decide

/-- C10 amended: a call with team provided and season absent fails
validation before any cache or upstream interaction — with the team-specific
message when league is absent, and with the league message otherwise — and
the branch that would auto-insert a next-ten parameter for a team-only query
never runs on any execution. -/
theorem team_requires_season :
    (∀ (a : SFArgs) (cav : Bool) (cached : Option Unit)
        (f : Except String (List String)),
      a.team ≠ none → a.season = none → a.league = none →
      searchFixtures a cav cached f =
        ⟨.validationError "When using 'team' parameter, 'season' is required",
         [], false, []⟩) ∧
    (∀ (a : SFArgs) (cav : Bool) (cached : Option Unit)
        (f : Except String (List String)),
      a.team ≠ none → a.season = none →
      (searchFixtures a cav cached f).events = [] ∧
      ∀ (c2 : Option Unit) (f2 : Except String (List String)),
        searchFixtures a cav cached f = searchFixtures a cav c2 f2) ∧
    (∀ (a : SFArgs) (cav : Bool) (cached : Option Unit)
        (f : Except String (List String)),
      (searchFixtures a cav cached f).autoNext = false) := by
  refine ⟨?_, ?_, ?_⟩
  · intro a cav cached f ht hs hl
    have hv : validate a =
        some "When using 'team' parameter, 'season' is required" := by
      rw [validate, if_neg (by simp [hl]), if_pos ⟨ht, hs⟩]
    simp [searchFixtures, hv]
  · intro a cav cached f ht hs
    obtain ⟨msg, hv⟩ : ∃ msg, validate a = some msg := by
      by_cases hl : a.league = none
      · exact ⟨_, by rw [validate, if_neg (by simp [hl]), if_pos ⟨ht, hs⟩]⟩
      · exact ⟨_, by rw [validate, if_pos ⟨hl, hs⟩]⟩
    exact ⟨by simp [searchFixtures, hv],
      fun c2 f2 => by simp [searchFixtures, hv]⟩
  · intro a cav cached f
    cases hv : validate a with
    | some msg => simp [searchFixtures, hv]
    | none =>
      have hna : autoNextCond a = false := by
        by_cases ht : a.team = none
        · simp [autoNextCond, ht]
        · by_cases hs : a.season = none
          · exfalso
            by_cases hl : a.league = none
            · simp [validate, ht, hs, hl] at hv
            · simp [validate, hs, hl] at hv
          · obtain ⟨x, hx⟩ : ∃ x, a.season = some x :=
              Option.ne_none_iff_exists'.mp hs
            simp [autoNextCond, hx]
      cases f with
      | error e =>
        simp [searchFixtures, hv, buildParams_snd, hna,
          apply_ite SFOutcome.autoNext]
      | ok sts =>
        simp [searchFixtures, hv, buildParams_snd, hna,
          apply_ite SFOutcome.autoNext]

/-- C10 witness: at concrete inputs — a team-only query returns the
team-specific validation error with no cache events, the team-plus-league
query performs no cache events either, and its auto-next flag is down. -/
theorem team_requires_season_witness :
    searchFixtures { team := some 33 } true none (.ok []) =
      ⟨.validationError "When using 'team' parameter, 'season' is required",
       [], false, []⟩ ∧
    (searchFixtures sfTeamLeague true none (.ok [])).events = [] ∧
    (searchFixtures sfTeamLeague true none (.ok [])).autoNext = false :=
  ⟨team_requires_season.1 { team := some 33 } true none (.ok [])
      (by decide) rfl rfl,
   (team_requires_season.2.1 sfTeamLeague true none (.ok [])
      (by decide) rfl).1,
   team_requires_season.2.2 sfTeamLeague true none (.ok [])⟩
